import Mathlib

/-!
Shallow embedding of the PixelPipe image-processing service
(`src/services/main.py`) and proofs about its claims.

Conventions of the embedding:
* Python non-negative machine arithmetic is `Nat`; the float arithmetic of
  `resize_image` (`img.width / img.height` etc.) is embedded as exact `ℚ`
  arithmetic, with Python `int(·)` on non-negative values embedded as `⌊·⌋₊`.
* Image bytes are abstracted to a `Body`: a byte count plus the image that the
  bytes decode to (`none` when decoding fails).
* Network and storage are an explicit `Env`: the HTTP response the source URL
  yields, and which storage paths accept an upload.
* Python exceptions are `Except`; the orchestrator's `try/except` is the
  corresponding `match`.
-/

namespace PixelPipe

/-! ## Transcoder dimension arithmetic (`resize_image`, lines 147-166) -/

/-- The aspect-fit computation of `ImageProcessor.resize_image`:
`img_ratio = img.width / img.height`, `target_ratio = width / height`;
if `img_ratio > target_ratio` the width is clamped and the height scaled
(`new_height = int(width / img_ratio)`), otherwise the height is clamped and
the width scaled (`new_width = int(height * img_ratio)`). Arguments are
source `w h` then target `W H`; division is exact rational division and
`int` truncation of a non-negative value is `Nat.floor`. -/
def resizeDims (w h W H : ℕ) : ℕ × ℕ :=
  if ((w : ℚ) / (h : ℚ)) > ((W : ℚ) / (H : ℚ)) then
    (W, ⌊(W : ℚ) / ((w : ℚ) / (h : ℚ))⌋₊)
  else
    (⌊(H : ℚ) * ((w : ℚ) / (h : ℚ))⌋₊, H)

/-- Modelled from the spec: `PIL.Image.thumbnail` (library code used by
`ImageProcessor.create_thumbnail`, not in `src/`) fits the image into the
bounding box preserving aspect ratio "without upscaling": an image already
inside the box is left unchanged, otherwise it is aspect-fit into the box. -/
def thumbnailDims (w h bw bh : ℕ) : ℕ × ℕ :=
  if w ≤ bw ∧ h ≤ bh then (w, h) else resizeDims w h bw bh

lemma resizeDims_eq_clamp_width (w h W H : ℕ) (hw : 0 < w) (hh : 0 < h)
    (hH : 0 < H) (hgt : W * h < w * H) :
    resizeDims w h W H = (W, W * h / w) := by
  unfold resizeDims
  rw [if_pos]
  · have hfl : ⌊(W : ℚ) / ((w : ℚ) / (h : ℚ))⌋₊ = W * h / w := by
      rw [div_div_eq_mul_div,
        show ((W : ℚ) * (h : ℚ)) = (((W * h : ℕ) : ℚ)) by push_cast; ring,
        Nat.floor_div_eq_div]
    rw [hfl]
  · rw [gt_iff_lt, div_lt_div_iff (by positivity) (by positivity)]
    exact_mod_cast hgt

lemma resizeDims_eq_clamp_height (w h W H : ℕ) (hw : 0 < w) (hh : 0 < h)
    (hH : 0 < H) (hle : w * H ≤ W * h) :
    resizeDims w h W H = (H * w / h, H) := by
  unfold resizeDims
  rw [if_neg]
  · have hfl : ⌊(H : ℚ) * ((w : ℚ) / (h : ℚ))⌋₊ = H * w / h := by
      rw [← mul_div_assoc,
        show ((H : ℚ) * (w : ℚ)) = (((H * w : ℕ) : ℚ)) by push_cast; ring,
        Nat.floor_div_eq_div]
    rw [hfl]
  · rw [gt_iff_lt, not_lt, div_le_div_iff (by positivity) (by positivity)]
    exact_mod_cast hle

lemma resizeDims_fst_le (w h W H : ℕ) (hw : 0 < w) (hh : 0 < h)
    (hH : 0 < H) : (resizeDims w h W H).1 ≤ W := by
  rcases lt_or_le (W * h) (w * H) with hgt | hle
  · rw [resizeDims_eq_clamp_width w h W H hw hh hH hgt]
  · rw [resizeDims_eq_clamp_height w h W H hw hh hH hle]
    have h1 : H * w ≤ W * h := by
      calc H * w = w * H := Nat.mul_comm H w
        _ ≤ W * h := hle
    calc H * w / h ≤ W * h / h := Nat.div_le_div_right h1
      _ = W := Nat.mul_div_cancel W hh

lemma resizeDims_snd_le (w h W H : ℕ) (hw : 0 < w) (hh : 0 < h)
    (hH : 0 < H) : (resizeDims w h W H).2 ≤ H := by
  rcases lt_or_le (W * h) (w * H) with hgt | hle
  · rw [resizeDims_eq_clamp_width w h W H hw hh hH hgt]
    have : W * h / w < H := by
      rw [Nat.div_lt_iff_lt_mul hw]
      calc W * h < w * H := hgt
        _ = H * w := Nat.mul_comm w H
    exact le_of_lt this
  · rw [resizeDims_eq_clamp_height w h W H hw hh hH hle]

/-- The thumbnail fit never exceeds the source dimensions. -/
lemma thumbnailDims_le_source (w h : ℕ) (hw : 0 < w) (hh : 0 < h) :
    (thumbnailDims w h 150 150).1 ≤ w ∧ (thumbnailDims w h 150 150).2 ≤ h := by
  unfold thumbnailDims
  by_cases hfit : w ≤ 150 ∧ h ≤ 150
  · rw [if_pos hfit]
    exact ⟨le_refl w, le_refl h⟩
  · rw [if_neg hfit]
    rcases lt_or_le (150 * h) (w * 150) with hgt | hle
    · have hhw : h < w := by
        have := (Nat.mul_lt_mul_right (by norm_num : 0 < 150)).1
          (by calc h * 150 = 150 * h := Nat.mul_comm h 150
                _ < w * 150 := hgt)
        exact this
      have h150w : 150 < w := by
        rcases not_and_or.1 hfit with hbad | hbad
        · exact Nat.lt_of_not_le hbad
        · exact lt_trans (Nat.lt_of_not_le hbad) hhw
      rw [resizeDims_eq_clamp_width w h 150 150 hw hh (by norm_num) hgt]
      constructor
      · exact le_of_lt h150w
      · have h1 : 150 * h ≤ w * h := Nat.mul_le_mul_right h (le_of_lt h150w)
        calc 150 * h / w ≤ w * h / w := Nat.div_le_div_right h1
          _ = h := by rw [Nat.mul_comm w h]; exact Nat.mul_div_cancel h hw
    · have hwh : w ≤ h := by
        have h2 : w * 150 ≤ h * 150 := by
          calc w * 150 ≤ 150 * h := hle
            _ = h * 150 := Nat.mul_comm 150 h
        exact Nat.le_of_mul_le_mul_right h2 (by norm_num)
      have h150h : 150 < h := by
        rcases not_and_or.1 hfit with hbad | hbad
        · exact lt_of_lt_of_le (Nat.lt_of_not_le hbad) hwh
        · exact Nat.lt_of_not_le hbad
      rw [resizeDims_eq_clamp_height w h 150 150 hw hh (by norm_num) hle]
      constructor
      · have h1 : 150 * w ≤ h * w := Nat.mul_le_mul_right w (le_of_lt h150h)
        calc 150 * w / h ≤ h * w / h := Nat.div_le_div_right h1
          _ = w := by rw [Nat.mul_comm h w]; exact Nat.mul_div_cancel w hh
      · exact le_of_lt h150h

/-! ## Kernel-computable string primitives

The embedding uses its own character-level versions of `str.lower`,
`str.startswith`, `str.split` and `int(·)` so that every definition reduces
on concrete inputs. They are ASCII-faithful, which covers every string the
service compares (header tokens, format names, `"WxH"` size strings). -/

/-- `str.lower` for an ASCII character. -/
def asciiLowerChar (c : Char) : Char :=
  if 65 ≤ c.toNat ∧ c.toNat ≤ 90 then Char.ofNat (c.toNat + 32) else c

/-- `str.lower` (ASCII-faithful). -/
def asciiLower (s : String) : String := String.mk (s.data.map asciiLowerChar)

/-- `s.startswith(p)`. -/
def strStartsWith (s p : String) : Bool :=
  decide (s.data.take p.data.length = p.data)

/-- `s.split(c)` on a single-character separator. -/
def splitOnChar (c : Char) : List Char → List (List Char)
  | [] => [[]]
  | a :: rest =>
    match splitOnChar c rest with
    | [] => [[a]]
    | g :: gs => if a = c then [] :: g :: gs else (a :: g) :: gs

/-- Value of an ASCII digit. -/
def digitVal? (c : Char) : Option ℕ :=
  if 48 ≤ c.toNat ∧ c.toNat ≤ 57 then some (c.toNat - 48) else none

/-- `int(s)` for a plain non-empty decimal numeral (the shape every size
token the claims exercise has); anything else fails, as `int` raises. -/
def natOfDigits? (l : List Char) : Option ℕ :=
  match l with
  | [] => none
  | _ =>
    l.foldl (fun acc c =>
      match acc, digitVal? c with
      | some n, some d => some (n * 10 + d)
      | _, _ => none) (some 0)

/-! ## Data model: bytes, HTTP, jobs -/

/-- The image an HTTP body decodes to. -/
structure ImageInfo where
  width : ℕ
  height : ℕ
deriving DecidableEq

/-- Downloaded bytes, abstracted to their count and the image they decode to
(`none` when `PIL.Image.open` raises on them). -/
structure Body where
  size : ℕ
  image : Option ImageInfo
deriving DecidableEq

/-- The HTTP response the source URL yields: status code, the optional
`content-type` and `content-length` headers, and the body. -/
structure HttpResponse where
  status : ℕ
  contentType : Option String
  contentLength : Option ℕ
  body : Body
deriving DecidableEq

/-- `self.max_image_size = 50 * 1024 * 1024` (50MB). -/
def max_image_size : ℕ := 50 * 1024 * 1024

/-- Failure modes of `ImageProcessor.download_image` (each is an `Exception`
with a distinct message in the source). -/
inductive DownloadError where
  | badStatus (status : ℕ)
  | badContentType (ct : String)
  | tooLarge (declared : ℕ)
deriving DecidableEq

/-- The download metadata fields the claims depend on: the lower-cased
content type and `len(image_data)`, the number of body bytes actually read.
(`original_url`, timestamps and the content hash are claim-irrelevant.) -/
structure DownloadMeta where
  contentType : String
  contentLength : ℕ
deriving DecidableEq

/-- `ImageProcessor.download_image` (lines 51-88): requires status `== 200`,
a content type starting with `image/`, and a declared `content-length`
(defaulting to `0` when the header is absent) at most `max_image_size`;
then `response.read()` reads the whole body, whatever its size. -/
def download_image (resp : HttpResponse) : Except DownloadError (Body × DownloadMeta) :=
  if resp.status ≠ 200 then Except.error (DownloadError.badStatus resp.status)
  else
    let ct := asciiLower (resp.contentType.getD "")
    if strStartsWith ct "image/" then
      let declared := resp.contentLength.getD 0
      if declared > max_image_size then Except.error (DownloadError.tooLarge declared)
      else Except.ok (resp.body, { contentType := ct, contentLength := resp.body.size })
    else Except.error (DownloadError.badContentType ct)

/-- Rendering of the `Exception` message raised by `download_image`
(each inner message is wrapped by the final `Download failed:` handler). -/
def downloadErrorMessage : DownloadError → String
  | DownloadError.badStatus s => "Download failed: HTTP " ++ toString s
  | DownloadError.badContentType ct => "Download failed: Invalid content type: " ++ ct
  | DownloadError.tooLarge n => "Download failed: Image too large: " ++ toString n ++ " bytes"

/-- Result of `ImageProcessor.extract_image_metadata`: the metadata dict on a
successful decode (abstracted to the dimensions), or the `{'error': ...}`
dict the method returns when decoding raises (lines 125-127). -/
inductive ImageMetadata where
  | ok (info : ImageInfo)
  | err (msg : String)
deriving DecidableEq

/-- `ImageProcessor.extract_image_metadata` (lines 90-127): never raises;
a decode failure becomes an `{'error': ...}` value. -/
def extract_image_metadata (b : Body) : ImageMetadata :=
  match b.image with
  | some info => ImageMetadata.ok info
  | none => ImageMetadata.err "decode failed"

/-! ## Transcoder (`resize_image`, `create_thumbnail`) -/

/-- `width, height = map(int, size_str.split('x'))` — succeeds exactly when
the string is two `x`-separated numerals; any parse failure raises inside the
per-target `try` and the target is skipped. -/
def parseSize (s : String) : Option (ℕ × ℕ) :=
  match splitOnChar 'x' s.data with
  | [a, b] =>
    match natOfDigits? a, natOfDigits? b with
    | some W, some H => some (W, H)
    | _, _ => none
  | _ => none

/-- The output encodings `resize_image` supports; other tokens are skipped
(`continue`, line 179). -/
def supportedFormat (f : String) : Bool :=
  asciiLower f == "jpeg" || asciiLower f == "webp" || asciiLower f == "png"

/-- `ImageProcessor.resize_image` (lines 129-191): decode failure yields the
empty result dict; each target size is parsed (a target whose parse or whose
`width / height` raises — e.g. `H = 0` — is skipped), aspect-fit dimensions
are computed, and one entry keyed `"{size_str}_{fmt}"` is produced per
supported output format. Encoded bytes are abstracted to the computed
dimensions. -/
def resize_image (b : Body) (target_sizes output_formats : List String) :
    List (String × ℕ × ℕ) :=
  match b.image with
  | none => []
  | some img =>
    target_sizes.flatMap (fun sizeStr =>
      match parseSize sizeStr with
      | none => []
      | some (W, H) =>
        if H = 0 then []
        else
          let dims := resizeDims img.width img.height W H
          output_formats.filterMap (fun fmt =>
            if supportedFormat fmt then some (sizeStr ++ "_" ++ asciiLower fmt, dims)
            else none))

/-- `ImageProcessor.create_thumbnail` (lines 193-219): a decode failure is
re-raised (`raise`, line 219); otherwise the thumbnail is the 150×150
bounded fit. The JPEG bytes are abstracted to the fitted dimensions. -/
def create_thumbnail (b : Body) : Except String (ℕ × ℕ) :=
  match b.image with
  | none => Except.error "Failed to create thumbnail"
  | some img => Except.ok (thumbnailDims img.width img.height 150 150)

/-! ## Storage, jobs, orchestrator -/

/-- Default of the `BUCKET_NAME` environment variable. -/
def BUCKET_NAME : String := "your-bucket-images"

/-- The external world a job runs against: the response its URL yields and
which storage paths accept an upload (`upload_to_storage` raises on the
others). -/
structure Env where
  response : HttpResponse
  uploadOk : String → Bool

/-- `ImageProcessor.upload_to_storage` (lines 221-245): returns
`gs://{bucket}/{path}` on success and raises on failure. -/
def upload_to_storage (env : Env) (path : String) : Except String String :=
  if env.uploadOk path then Except.ok ("gs://" ++ BUCKET_NAME ++ "/" ++ path)
  else Except.error ("Failed to upload " ++ path)

/-- `processing_options` with the defaults `process_image_job` applies via
`.get` (lines 289, 302-303). -/
structure ProcessingOptions where
  create_thumbnail : Bool := true
  resize_formats : List String := ["400x300"]
  output_formats : List String := ["jpeg"]
deriving DecidableEq

/-- A job whose three required fields are present. -/
structure Job where
  job_id : String
  image_id : String
  url : String
  options : ProcessingOptions
deriving DecidableEq

inductive Status where
  | processing
  | completed
  | failed
deriving DecidableEq

/-- `result['outputs']`: `original` and `thumbnail` keys, and the nested
`resized` dict (`none` when the `resized` key was never created). -/
structure Outputs where
  original : Option String := none
  thumbnail : Option String := none
  resized : Option (List (String × String)) := none
deriving DecidableEq

/-- The `result` dict of `process_image_job`, restricted to the
claim-relevant fields. -/
structure JobResult where
  job_id : String
  image_id : String
  original_url : String
  status : Status
  outputs : Outputs
  metadataDownload : Option DownloadMeta
  metadataImage : Option ImageMetadata
  errors : List String
deriving DecidableEq

/-- Storage path of the original (line 279), `.jpg` suffix included. -/
def originalPath (image_id : String) : String :=
  "original/" ++ image_id ++ "/" ++ image_id ++ "_original.jpg"

/-- Storage path of the thumbnail (line 292), `.jpg` suffix included. -/
def thumbnailPath (image_id : String) : String :=
  "thumbnails/" ++ image_id ++ "/" ++ image_id ++ "_thumb.jpg"

/-- Storage path of a resized variant (line 311); `key` is the
`"{size}_{format}"` dict key. -/
def resizedPath (image_id key : String) : String :=
  "resized/" ++ image_id ++ "/" ++ image_id ++ "_" ++ key

/-- The upload loop over `resized_images.items()` (lines 310-317): entries
accumulate into the `resized` dict until an upload raises; the error, if any,
is returned beside what accumulated before it. -/
def uploadResizedLoop (env : Env) (image_id : String) :
    List (String × ℕ × ℕ) → List (String × String) →
    List (String × String) × Option String
  | [], acc => (acc, none)
  | item :: rest, acc =>
    match upload_to_storage env (resizedPath image_id item.1) with
    | Except.ok url => uploadResizedLoop env image_id rest (acc ++ [(item.1, url)])
    | Except.error e => (acc, some e)

/-- Step 5 of `process_image_job` (lines 300-318) plus the success epilogue
(line 320): when `resize_formats` is non-empty the `resized` key is created
and filled by the upload loop; an upload failure falls to the `except`
handler (status `failed`, error appended), otherwise status becomes
`completed`. -/
def resizeStage (env : Env) (job : Job) (body : Body) (r : JobResult) : JobResult :=
  if job.options.resize_formats.isEmpty then
    { r with status := Status.completed }
  else
    let resizedImages := resize_image body job.options.resize_formats job.options.output_formats
    let step := uploadResizedLoop env job.image_id resizedImages []
    let r1 := { r with outputs := { r.outputs with resized := some step.1 } }
    match step.2 with
    | some e => { r1 with status := Status.failed, errors := r1.errors ++ [e] }
    | none => { r1 with status := Status.completed }

/-- Step 4 of `process_image_job` (lines 288-298): when `create_thumbnail`
is enabled, a thumbnail failure (decode or upload) falls to the `except`
handler — status `failed`, error appended, later stages skipped; on success
the pipeline proceeds to the resize stage. -/
def thumbnailStage (env : Env) (job : Job) (body : Body) (r : JobResult) : JobResult :=
  if job.options.create_thumbnail then
    match create_thumbnail body with
    | Except.error e => { r with status := Status.failed, errors := r.errors ++ [e] }
    | Except.ok _ =>
      match upload_to_storage env (thumbnailPath job.image_id) with
      | Except.error e => { r with status := Status.failed, errors := r.errors ++ [e] }
      | Except.ok turl =>
        resizeStage env job body
          { r with outputs := { r.outputs with thumbnail := some turl } }
  else resizeStage env job body r

/-- `ImageProcessor.process_image_job` (lines 247-336): the staged pipeline
under one `try/except`; any raising stage leaves the partially filled result
with status `failed` and the exception message appended to `errors`. -/
def process_image_job (env : Env) (job : Job) : JobResult :=
  let base : JobResult :=
    { job_id := job.job_id, image_id := job.image_id, original_url := job.url,
      status := Status.processing, outputs := {}, metadataDownload := none,
      metadataImage := none, errors := [] }
  match download_image env.response with
  | Except.error e =>
    { base with status := Status.failed, errors := [downloadErrorMessage e] }
  | Except.ok (body, dlMeta) =>
    let r1 := { base with metadataDownload := some dlMeta }
    let r2 := { r1 with metadataImage := some (extract_image_metadata body) }
    match upload_to_storage env (originalPath job.image_id) with
    | Except.error e => { r2 with status := Status.failed, errors := [e] }
    | Except.ok ourl =>
      thumbnailStage env job body
        { r2 with outputs := { r2.outputs with original := some ourl } }

/-! ## Message consumption and the HTTP endpoint -/

/-- A decoded Pub/Sub payload: any of the three required fields may be
absent, in which case `process_image_job`'s header (lines 250-252) raises a
`KeyError` that escapes stage isolation. -/
structure RawJob where
  job_id : Option String := none
  image_id : Option String := none
  url : Option String := none
  options : ProcessingOptions := {}

/-- Running `process_image_job` on a raw payload: the `job['job_id']` /
`job['image_id']` / `job['url']` accesses precede the `try`, so a missing
field is an exception escaping the orchestrator. -/
def run_job (env : Env) (raw : RawJob) : Except String JobResult :=
  match raw.job_id, raw.image_id, raw.url with
  | some j, some i, some u =>
    Except.ok (process_image_job env
      { job_id := j, image_id := i, url := u, options := raw.options })
  | _, _, _ => Except.error "KeyError"

inductive AckAction where
  | ack
  | nack
deriving DecidableEq

/-- `PubSubHandler.process_message` (lines 358-379): a message is `none` when
its JSON fails to parse. Any exception reaching the handler nacks; a returned
result — whatever its status — is acked (`update_job_status` swallows its own
failures, lines 355-356). -/
def process_message (env : Env) (msg : Option RawJob) : AckAction :=
  match msg with
  | none => AckAction.nack
  | some raw =>
    match run_job env raw with
    | Except.ok _ => AckAction.ack
    | Except.error _ => AckAction.nack

/-- Body of a `POST /process` request: not JSON, the empty (falsy) JSON
object, or a JSON object with the recognised fields. -/
inductive PostBody where
  | notJson
  | emptyObject
  | obj (raw : RawJob)

/-- Reply of the `/process` endpoint: `jsonify(result)`, or an
`{'error': ...}` reply with its HTTP status code. -/
inductive HttpReply where
  | fullResult (r : JobResult)
  | errorReply (code : ℕ) (msg : String)

/-- `process_single_image` (lines 394-415): a falsy body (not JSON, or the
empty object) gets a 400 error reply; otherwise missing `job_id` / `image_id`
are filled with fresh UUIDs and the job runs; an exception escaping the
orchestrator (missing `url`) gets a 500 error reply. -/
def process_single_image (env : Env) (body : PostBody)
    (freshJobId freshImageId : String) : HttpReply :=
  match body with
  | PostBody.notJson => HttpReply.errorReply 400 "Request body must be JSON"
  | PostBody.emptyObject => HttpReply.errorReply 400 "Request body must be JSON"
  | PostBody.obj raw =>
    let raw1 : RawJob :=
      { raw with job_id := some (raw.job_id.getD freshJobId),
                 image_id := some (raw.image_id.getD freshImageId) }
    match run_job env raw1 with
    | Except.ok r => HttpReply.fullResult r
    | Except.error e => HttpReply.errorReply 500 e

deriving instance DecidableEq for Except

/-! ## Concrete fixtures for witnesses and counterexamples -/

/-- A 1600×1200 image body of 1000 bytes. -/
def goodBody : Body := { size := 1000, image := some { width := 1600, height := 1200 } }

/-- A well-formed 200 response carrying `goodBody`. -/
def okResponse : HttpResponse :=
  { status := 200, contentType := some "image/jpeg", contentLength := some 1000,
    body := goodBody }

/-- Environment where every stage succeeds. -/
def envAllOk : Env := { response := okResponse, uploadOk := fun _ => true }

/-- Environment where exactly the thumbnail upload fails. -/
def envThumbUploadFails : Env :=
  { response := okResponse, uploadOk := fun p => !(p == thumbnailPath "img1") }

/-- Environment whose download returns HTTP 404. -/
def env404 : Env :=
  { response := { status := 404, contentType := none, contentLength := none,
                  body := { size := 0, image := none } },
    uploadOk := fun _ => true }

/-- A 200 response whose 10 bytes fail to decode. -/
def envBadImage : Env :=
  { response := { status := 200, contentType := some "image/png",
                  contentLength := some 10, body := { size := 10, image := none } },
    uploadOk := fun _ => true }

/-- A 200 `image/jpeg` response with no `content-length` header whose body
exceeds `max_image_size` by one byte. -/
def oversizedResponse : HttpResponse :=
  { status := 200, contentType := some "image/jpeg", contentLength := none,
    body := { size := 52428801, image := none } }

/-- A job with all fields present and default options. -/
def job1 : Job :=
  { job_id := "j1", image_id := "img1", url := "http://example.com/a.jpg",
    options := {} }

/-- A raw payload with all three required fields present. -/
def rawJob1 : RawJob :=
  { job_id := some "j1", image_id := some "i1", url := some "http://example.com/a.jpg" }

/-! ## Shared lemmas about the stages -/

lemma upload_to_storage_ok (env : Env) (p : String) (h : env.uploadOk p = true) :
    upload_to_storage env p = Except.ok ("gs://" ++ BUCKET_NAME ++ "/" ++ p) := by
  simp [upload_to_storage, h]

lemma upload_to_storage_fail (env : Env) (p : String) (h : env.uploadOk p = false) :
    upload_to_storage env p = Except.error ("Failed to upload " ++ p) := by
  simp [upload_to_storage, h]

lemma download_image_eq_ok (resp : HttpResponse) (hst : resp.status = 200)
    (hct : strStartsWith (asciiLower (resp.contentType.getD "")) "image/" = true)
    (hlen : resp.contentLength.getD 0 ≤ max_image_size) :
    download_image resp = Except.ok (resp.body,
      { contentType := asciiLower (resp.contentType.getD ""),
        contentLength := resp.body.size }) := by
  have hlt : ¬ (resp.contentLength.getD 0 > max_image_size) := not_lt.2 hlen
  simp [download_image, hst, hct, hlt]

lemma download_image_too_large (resp : HttpResponse) (hst : resp.status = 200)
    (hct : strStartsWith (asciiLower (resp.contentType.getD "")) "image/" = true)
    (hgt : max_image_size < resp.contentLength.getD 0) :
    download_image resp = Except.error (DownloadError.tooLarge (resp.contentLength.getD 0)) := by
  simp [download_image, hst, hct, hgt]

lemma uploadResizedLoop_all_ok (env : Env) (id : String)
    (hup : ∀ p, env.uploadOk p = true) :
    ∀ (items : List (String × ℕ × ℕ)) (acc : List (String × String)),
      uploadResizedLoop env id items acc =
        (acc ++ items.map
          (fun it => (it.1, "gs://" ++ BUCKET_NAME ++ "/" ++ resizedPath id it.1)), none) := by
  intro items
  induction items with
  | nil => intro acc; simp [uploadResizedLoop]
  | cons item rest ih =>
    intro acc
    rw [uploadResizedLoop, upload_to_storage_ok env _ (hup _)]
    simp [ih]

lemma resizeStage_outputs_congr (env : Env) (j j' : Job) (body : Body)
    (r r' : JobResult) (hi : j.image_id = j'.image_id) (ho : j.options = j'.options)
    (hout : r.outputs = r'.outputs) :
    (resizeStage env j body r).outputs = (resizeStage env j' body r').outputs := by
  unfold resizeStage
  rw [hi, ho]
  by_cases hre : j'.options.resize_formats.isEmpty
  · simp [hre, hout]
  · simp only [hre, if_false]
    cases hstep : (uploadResizedLoop env j'.image_id
        (resize_image body j'.options.resize_formats j'.options.output_formats) []).2 with
    | none => simp [hstep, hout]
    | some e => simp [hstep, hout]

lemma thumbnailStage_outputs_congr (env : Env) (j j' : Job) (body : Body)
    (r r' : JobResult) (hi : j.image_id = j'.image_id) (ho : j.options = j'.options)
    (hout : r.outputs = r'.outputs) :
    (thumbnailStage env j body r).outputs = (thumbnailStage env j' body r').outputs := by
  unfold thumbnailStage
  rw [hi, ho]
  cases hth : j'.options.create_thumbnail with
  | false => simp only [hth, Bool.false_eq_true, if_false]
             exact resizeStage_outputs_congr env j j' body r r' hi ho hout
  | true =>
    simp only [hth, if_true]
    cases hct : create_thumbnail body with
    | error e => simp [hout]
    | ok dims =>
      cases hup : upload_to_storage env (thumbnailPath j'.image_id) with
      | error e => simp [hout]
      | ok turl =>
        exact resizeStage_outputs_congr env j j' body _ _ hi ho (by simp [hout])

lemma process_outputs_jobid_irrelevant (env : Env) (a b i u : String)
    (o : ProcessingOptions) :
    (process_image_job env { job_id := a, image_id := i, url := u, options := o }).outputs =
      (process_image_job env { job_id := b, image_id := i, url := u, options := o }).outputs := by
  unfold process_image_job
  cases hdl : download_image env.response with
  | error e => rfl
  | ok bm =>
    obtain ⟨body, dlMeta⟩ := bm
    cases hup : upload_to_storage env (originalPath i) with
    | error e => rfl
    | ok ourl =>
      exact thumbnailStage_outputs_congr env _ _ body _ _ rfl rfl rfl

/-! ## Claim theorems -/

/-- C2: for source dimensions `w × h` and requested target `W × H`, all
positive, the computed resize dimensions `(rw, rh)` satisfy `rw ≤ W` and
`rh ≤ H`; if the source ratio exceeds the target ratio (`w/h > W/H`, i.e.
`W·h < w·H`) then `rw = W` and `rh = ⌊W·h/w⌋`, otherwise `rh = H` and
`rw = ⌊H·w/h⌋` — one dimension equals its bound, the other is scaled
proportionally with fractional pixels floored (here `/` is `ℕ` division,
the floor of the exact quotient). -/
theorem resize_dims_aspect_fit (w h W H : ℕ) (hw : 0 < w) (hh : 0 < h)
    (hW : 0 < W) (hH : 0 < H) :
    (resizeDims w h W H).1 ≤ W ∧ (resizeDims w h W H).2 ≤ H ∧
      (if W * h < w * H then resizeDims w h W H = (W, W * h / w)
       else resizeDims w h W H = (H * w / h, H)) := by
  refine ⟨resizeDims_fst_le w h W H hw hh hH,
    resizeDims_snd_le w h W H hw hh hH, ?_⟩
  by_cases hc : W * h < w * H
  · rw [if_pos hc]
    exact resizeDims_eq_clamp_width w h W H hw hh hH hc
  · rw [if_neg hc]
    exact resizeDims_eq_clamp_height w h W H hw hh hH (le_of_not_lt hc)

/-- Witness for C2 at the spec's own example: a 1600×1200 source resized to
target 800×600 yields exactly 800×600. -/
theorem resize_dims_aspect_fit_witness :
    (resizeDims 1600 1200 800 600).1 ≤ 800 ∧ (resizeDims 1600 1200 800 600).2 ≤ 600 ∧
      (if 800 * 1200 < 1600 * 600
       then resizeDims 1600 1200 800 600 = (800, 800 * 1200 / 1600)
       else resizeDims 1600 1200 800 600 = (600 * 1600 / 1200, 600)) :=
  resize_dims_aspect_fit 1600 1200 800 600 (by norm_num) (by norm_num)
    (by norm_num) (by norm_num)

/-- C10: for a source strictly smaller than the requested bounding box in
both dimensions, the resize stage upscales — at least one computed output
dimension strictly exceeds the corresponding source dimension — whereas the
thumbnail fit never exceeds the source dimensions. -/
theorem resize_upscales_small_sources (w h W H : ℕ) (hw : 0 < w) (hh : 0 < h)
    (hwW : w < W) (hhH : h < H) :
    (w < (resizeDims w h W H).1 ∨ h < (resizeDims w h W H).2) ∧
      (thumbnailDims w h 150 150).1 ≤ w ∧ (thumbnailDims w h 150 150).2 ≤ h := by
  refine ⟨?_, thumbnailDims_le_source w h hw hh⟩
  rcases lt_or_le (W * h) (w * H) with hgt | hle
  · left
    rw [resizeDims_eq_clamp_width w h W H hw hh (lt_trans hh hhH) hgt]
    exact hwW
  · right
    rw [resizeDims_eq_clamp_height w h W H hw hh (lt_trans hh hhH) hle]
    exact hhH

/-- Witness for C10: a 100×50 source against a 400×300 box is upscaled by
the resize stage, while its thumbnail stays at most 100×50. -/
theorem resize_upscales_small_sources_witness :
    (100 < (resizeDims 100 50 400 300).1 ∨ 50 < (resizeDims 100 50 400 300).2) ∧
      (thumbnailDims 100 50 150 150).1 ≤ 100 ∧ (thumbnailDims 100 50 150 150).2 ≤ 50 :=
  resize_upscales_small_sources 100 50 400 300 (by norm_num) (by norm_num)
    (by norm_num) (by norm_num)

/-- C3: a non-2xx download response makes the download stage fail with the
bad-status `DownloadError` (the code in fact demands exactly 200), the job
terminates with status `failed`, and no upload happens: the outputs map has
no original, thumbnail, or resized entry. -/
theorem non_2xx_download_fails_job (env : Env) (job : Job)
    (hs : ¬ (200 ≤ env.response.status ∧ env.response.status < 300)) :
    download_image env.response =
      Except.error (DownloadError.badStatus env.response.status) ∧
    (process_image_job env job).status = Status.failed ∧
    (process_image_job env job).outputs.original = none ∧
    (process_image_job env job).outputs.thumbnail = none ∧
    (process_image_job env job).outputs.resized = none := by
  have hne : env.response.status ≠ 200 := by
    intro h
    exact hs ⟨by omega, by omega⟩
  have hdl : download_image env.response =
      Except.error (DownloadError.badStatus env.response.status) := by
    unfold download_image
    rw [if_pos hne]
  refine ⟨hdl, ?_⟩
  unfold process_image_job
  rw [hdl]
  exact ⟨rfl, rfl, rfl, rfl⟩

/-- Witness for C3: an HTTP 404 response fails the job with empty outputs. -/
theorem non_2xx_download_fails_job_witness :
    download_image env404.response =
      Except.error (DownloadError.badStatus env404.response.status) ∧
    (process_image_job env404 job1).status = Status.failed ∧
    (process_image_job env404 job1).outputs.original = none ∧
    (process_image_job env404 job1).outputs.thumbnail = none ∧
    (process_image_job env404 job1).outputs.resized = none :=
  non_2xx_download_fails_job env404 job1 (by decide)

/-- C4 counterexample: a 200 `image/` response with no `content-length`
header and a body one byte over the 50MB maximum is downloaded successfully
— the whole body (52428801 bytes, recorded as the downloaded length) is
read — contradicting the claim that the bytes read are bounded by the
maximum and that an oversized body fails the download. -/
theorem download_unbounded_read_cex :
    max_image_size < oversizedResponse.body.size ∧
    download_image oversizedResponse = Except.ok (oversizedResponse.body,
      { contentType := "image/jpeg", contentLength := 52428801 }) := by
  exact ⟨by decide, by decide⟩

/-- C4 amended: the size guard inspects only the declared `content-length`
header (absent means `0`): for a 200 `image/` response the download succeeds
iff the declared length is at most the maximum, and on success the number of
body bytes read equals the actual body size, however large. -/
theorem download_size_check_is_header_only (resp : HttpResponse)
    (hst : resp.status = 200)
    (hct : strStartsWith (asciiLower (resp.contentType.getD "")) "image/" = true) :
    ((∃ b m, download_image resp = Except.ok (b, m)) ↔
      resp.contentLength.getD 0 ≤ max_image_size) ∧
    (∀ b m, download_image resp = Except.ok (b, m) →
      b = resp.body ∧ m.contentLength = resp.body.size) := by
  constructor
  · constructor
    · rintro ⟨b, m, hbm⟩
      by_contra hgt
      rw [download_image_too_large resp hst hct (not_le.1 hgt)] at hbm
      exact Except.noConfusion hbm
    · intro hle
      exact ⟨_, _, download_image_eq_ok resp hst hct hle⟩
  · intro b m hbm
    rcases le_or_lt (resp.contentLength.getD 0) max_image_size with hle | hgt
    · rw [download_image_eq_ok resp hst hct hle] at hbm
      have h1 := Except.ok.inj hbm
      have hb := congrArg Prod.fst h1
      have hm := congrArg Prod.snd h1
      simp only at hb hm
      exact ⟨hb.symm, by rw [← hm]⟩
    · rw [download_image_too_large resp hst hct hgt] at hbm
      exact Except.noConfusion hbm

/-- Witness for C4 amended, at `oversizedResponse`: no `content-length`
header, so the declared length `0` passes the guard and the oversized body
is read whole. -/
theorem download_size_check_is_header_only_witness :
    ((∃ b m, download_image oversizedResponse = Except.ok (b, m)) ↔
      oversizedResponse.contentLength.getD 0 ≤ max_image_size) ∧
    (∀ b m, download_image oversizedResponse = Except.ok (b, m) →
      b = oversizedResponse.body ∧ m.contentLength = oversizedResponse.body.size) :=
  download_size_check_is_header_only oversizedResponse (by decide) (by decide)

/-- C1 counterexample: with a healthy download and a failing thumbnail
upload, the thumbnail-stage failure is appended to the error list but the
job terminates `failed` — not `completed` — and the resize stage never runs
(`resized` is absent from the outputs), contrary to the claim. -/
theorem thumbnail_failure_fails_job_cex :
    (process_image_job envThumbUploadFails job1).errors =
      ["Failed to upload thumbnails/img1/img1_thumb.jpg"] ∧
    (process_image_job envThumbUploadFails job1).status = Status.failed ∧
    (process_image_job envThumbUploadFails job1).outputs.resized = none := by
  exact ⟨by decide, by decide, by decide⟩

/-- C1 amended: a failure in the thumbnail stage (a failing decode or a
failing thumbnail upload) is appended to the result's error list, but it
makes the job terminate with status `failed` and the resize stage does not
run: the outputs map never receives a `resized` entry. -/
theorem thumbnail_failure_blocks_completion (env : Env) (job : Job)
    (body : Body) (meta : DownloadMeta)
    (hdl : download_image env.response = Except.ok (body, meta))
    (hth : job.options.create_thumbnail = true)
    (hfail : (create_thumbnail body).isOk = false ∨
      env.uploadOk (thumbnailPath job.image_id) = false) :
    (process_image_job env job).status = Status.failed ∧
    (process_image_job env job).errors ≠ [] ∧
    (process_image_job env job).outputs.resized = none := by
  unfold process_image_job
  rw [hdl]
  cases hup : upload_to_storage env (originalPath job.image_id) with
  | error e => exact ⟨rfl, by simp, rfl⟩
  | ok ourl =>
    unfold thumbnailStage
    rw [hth]
    simp only [if_true]
    cases hct : create_thumbnail body with
    | error e => exact ⟨rfl, by simp, rfl⟩
    | ok dims =>
      have hupf : env.uploadOk (thumbnailPath job.image_id) = false := by
        rcases hfail with hbad | hupf
        · rw [hct] at hbad
          simp [Except.isOk, Except.toBool] at hbad
        · exact hupf
      rw [upload_to_storage_fail env _ hupf]
      exact ⟨rfl, by simp, rfl⟩

/-- Witness for C1 amended at the concrete failing-thumbnail-upload
environment. -/
theorem thumbnail_failure_blocks_completion_witness :
    (process_image_job envThumbUploadFails job1).status = Status.failed ∧
    (process_image_job envThumbUploadFails job1).errors ≠ [] ∧
    (process_image_job envThumbUploadFails job1).outputs.resized = none :=
  thumbnail_failure_blocks_completion envThumbUploadFails job1 goodBody
    { contentType := "image/jpeg", contentLength := 1000 }
    (by decide) (by decide) (Or.inr (by decide))

/-- C5 counterexample: a job whose download stage fails (HTTP 404, terminal
status `failed`) has its message acknowledged — the stage-isolated failure
returns a terminal result, so `message.ack()` runs — contrary to the claim
that a download-failed job is left unacknowledged for queue redelivery. -/
theorem download_failed_job_still_acked_cex :
    process_message env404 (some rawJob1) = AckAction.ack ∧
    (process_image_job env404
      { job_id := "j1", image_id := "i1", url := "http://example.com/a.jpg",
        options := {} }).status = Status.failed := by
  exact ⟨by decide, by decide⟩

/-- C5 amended: every message whose job reaches a terminal result through
stage isolation — `completed` or `failed`, download failures included — is
acknowledged; the message is left unacknowledged (nacked) exactly when
processing raises outside stage isolation: unparseable JSON, or a payload
missing `job_id`, `image_id`, or `url`. -/
theorem message_acked_iff_fields_present (env : Env) (msg : Option RawJob) :
    process_message env msg = AckAction.ack ↔
      ∃ raw, msg = some raw ∧ raw.job_id.isSome = true ∧
        raw.image_id.isSome = true ∧ raw.url.isSome = true := by
  cases msg with
  | none => simp [process_message]
  | some raw =>
    rcases raw with ⟨jid, iid, url, opts⟩
    cases jid <;> cases iid <;> cases url <;>
      simp [process_message, run_job]

/-- C6: when the downloaded bytes fail to decode, the metadata stage records
the failure non-fatally (the `image` metadata is the error value and the
pipeline continues far enough to upload the original); the job then fails
exactly when the thumbnail stage — which requires a successful decode —
is enabled, and completes when it is disabled (the resize stage tolerates
the failed decode by producing no variants). -/
theorem decode_failure_nonfatal_unless_required (env : Env) (job : Job)
    (body : Body) (meta : DownloadMeta)
    (hdl : download_image env.response = Except.ok (body, meta))
    (hbad : body.image = none)
    (hup : ∀ p, env.uploadOk p = true) :
    (process_image_job env job).metadataImage =
      some (ImageMetadata.err "decode failed") ∧
    (process_image_job env job).outputs.original.isSome = true ∧
    (job.options.create_thumbnail = true →
      (process_image_job env job).status = Status.failed) ∧
    (job.options.create_thumbnail = false →
      (process_image_job env job).status = Status.completed) := by
  unfold process_image_job
  rw [hdl, upload_to_storage_ok env _ (hup _)]
  have hmeta : extract_image_metadata body = ImageMetadata.err "decode failed" := by
    simp [extract_image_metadata, hbad]
  have hri : resize_image body job.options.resize_formats
      job.options.output_formats = [] := by
    simp [resize_image, hbad]
  have hrs : ∀ r : JobResult,
      (resizeStage env job body r).status = Status.completed := by
    intro r
    unfold resizeStage
    by_cases hre : job.options.resize_formats.isEmpty
    · simp [hre]
    · simp [hre, hri, uploadResizedLoop]
  have hrm : ∀ r : JobResult,
      (resizeStage env job body r).metadataImage = r.metadataImage := by
    intro r
    unfold resizeStage
    by_cases hre : job.options.resize_formats.isEmpty
    · simp [hre]
    · simp [hre, hri, uploadResizedLoop]
  have hro : ∀ r : JobResult,
      (resizeStage env job body r).outputs.original = r.outputs.original := by
    intro r
    unfold resizeStage
    by_cases hre : job.options.resize_formats.isEmpty
    · simp [hre]
    · simp [hre, hri, uploadResizedLoop]
  unfold thumbnailStage
  by_cases hth : job.options.create_thumbnail = true
  · have hct : create_thumbnail body = Except.error "Failed to create thumbnail" := by
      simp [create_thumbnail, hbad]
    simp [hth, hct, hmeta]
  · simp [hth, hrs, hrm, hro, hmeta]

/-- Witness for C6 at a concrete undecodable 200 response with the default
options (thumbnail enabled): the job fails while the metadata error is
non-fatal in itself. -/
theorem decode_failure_nonfatal_unless_required_witness :
    (process_image_job envBadImage job1).metadataImage =
      some (ImageMetadata.err "decode failed") ∧
    (process_image_job envBadImage job1).outputs.original.isSome = true ∧
    (job1.options.create_thumbnail = true →
      (process_image_job envBadImage job1).status = Status.failed) ∧
    (job1.options.create_thumbnail = false →
      (process_image_job envBadImage job1).status = Status.completed) :=
  decode_failure_nonfatal_unless_required envBadImage job1
    { size := 10, image := none }
    { contentType := "image/png", contentLength := 10 }
    (by decide) rfl (fun _ => rfl)

/-- C7 counterexample: on a fully successful run the stored original and
thumbnail paths end in `.jpg` (`original/img1/img1_original.jpg`,
`thumbnails/img1/img1_thumb.jpg`), which differ from the claimed templates
`original/{image_id}/{image_id}_original` and
`thumbnails/{image_id}/{image_id}_thumb`. -/
theorem artifact_path_extension_cex :
    (process_image_job envAllOk job1).outputs.original =
      some "gs://your-bucket-images/original/img1/img1_original.jpg" ∧
    (process_image_job envAllOk job1).outputs.thumbnail =
      some "gs://your-bucket-images/thumbnails/img1/img1_thumb.jpg" ∧
    "original/img1/img1_original.jpg" ≠ "original/img1/img1_original" ∧
    "thumbnails/img1/img1_thumb.jpg" ≠ "thumbnails/img1/img1_thumb" := by
  exact ⟨by decide, by decide, by decide, by decide⟩

/-- C7 amended: the storage paths follow the claimed templates except that
the original and thumbnail carry a `.jpg` extension:
`original/{image_id}/{image_id}_original.jpg`,
`thumbnails/{image_id}/{image_id}_thumb.jpg`, and — extension-free, exactly
as claimed — `resized/{image_id}/{image_id}_{size}_{format}` for each
resized variant (whose key `pr.1` is the `{size}_{format}` pair). -/
theorem artifact_paths_have_extension (env : Env) (job : Job)
    (body : Body) (meta : DownloadMeta)
    (hdl : download_image env.response = Except.ok (body, meta))
    (hup : ∀ p, env.uploadOk p = true)
    (hth : job.options.create_thumbnail = true)
    (himg : body.image.isSome = true) :
    (process_image_job env job).outputs.original =
      some ("gs://" ++ BUCKET_NAME ++ "/" ++
        ("original/" ++ job.image_id ++ "/" ++ job.image_id ++ "_original.jpg")) ∧
    (process_image_job env job).outputs.thumbnail =
      some ("gs://" ++ BUCKET_NAME ++ "/" ++
        ("thumbnails/" ++ job.image_id ++ "/" ++ job.image_id ++ "_thumb.jpg")) ∧
    ∀ pr ∈ ((process_image_job env job).outputs.resized.getD []),
      pr.2 = "gs://" ++ BUCKET_NAME ++ "/" ++
        ("resized/" ++ job.image_id ++ "/" ++ job.image_id ++ "_" ++ pr.1) := by
  obtain ⟨info, hinfo⟩ : ∃ i, body.image = some i := by
    cases hbi : body.image with
    | none => rw [hbi] at himg; exact absurd himg (by simp)
    | some i => exact ⟨i, rfl⟩
  unfold process_image_job
  rw [hdl, upload_to_storage_ok env _ (hup _)]
  unfold thumbnailStage
  rw [hth]
  simp only [if_true]
  have hct : create_thumbnail body =
      Except.ok (thumbnailDims info.width info.height 150 150) := by
    simp [create_thumbnail, hinfo]
  rw [hct, upload_to_storage_ok env _ (hup _)]
  unfold resizeStage
  by_cases hre : job.options.resize_formats.isEmpty
  · simp [hre, originalPath, thumbnailPath]
  · simp only [hre, if_false,
      uploadResizedLoop_all_ok env job.image_id hup]
    refine ⟨by simp [originalPath], by simp [thumbnailPath], ?_⟩
    intro pr hpr
    simp [List.mem_map] at hpr
    obtain ⟨it, hit, rfl⟩ := hpr
    simp [resizedPath]

/-- Witness for C7 amended on the all-success environment. -/
theorem artifact_paths_have_extension_witness :
    (process_image_job envAllOk job1).outputs.original =
      some ("gs://" ++ BUCKET_NAME ++ "/" ++
        ("original/" ++ job1.image_id ++ "/" ++ job1.image_id ++ "_original.jpg")) ∧
    (process_image_job envAllOk job1).outputs.thumbnail =
      some ("gs://" ++ BUCKET_NAME ++ "/" ++
        ("thumbnails/" ++ job1.image_id ++ "/" ++ job1.image_id ++ "_thumb.jpg")) ∧
    ∀ pr ∈ ((process_image_job envAllOk job1).outputs.resized.getD []),
      pr.2 = "gs://" ++ BUCKET_NAME ++ "/" ++
        ("resized/" ++ job1.image_id ++ "/" ++ job1.image_id ++ "_" ++ pr.1) :=
  artifact_paths_have_extension envAllOk job1 goodBody
    { contentType := "image/jpeg", contentLength := 1000 }
    (by decide) (fun _ => rfl) rfl rfl

/-- C8: for two jobs with the same `image_id`, the same source URL and the
same processing options, run against the same external world, the produced
outputs — hence the set of artifact storage paths — are identical: the paths
are a deterministic function of `image_id` and the variant keys alone, and
in particular do not depend on the delivered `job_id`, so re-processing or
re-delivery never creates a distinct duplicate path. -/
theorem artifact_paths_deterministic (env : Env) (j1 j2 : Job)
    (hi : j1.image_id = j2.image_id) (hu : j1.url = j2.url)
    (ho : j1.options = j2.options) :
    (process_image_job env j1).outputs = (process_image_job env j2).outputs := by
  rcases j1 with ⟨a, i1, u1, o1⟩
  rcases j2 with ⟨b, i2, u2, o2⟩
  simp only at hi hu ho
  subst hi
  subst hu
  subst ho
  exact process_outputs_jobid_irrelevant env a b i1 u1 o1

/-- Witness for C8: a re-delivered copy of `job1` under a different `job_id`
produces identical outputs. -/
theorem artifact_paths_deterministic_witness :
    (process_image_job envAllOk job1).outputs =
      (process_image_job envAllOk
        { job_id := "redelivery", image_id := "img1",
          url := "http://example.com/a.jpg", options := {} }).outputs :=
  artifact_paths_deterministic envAllOk job1
    { job_id := "redelivery", image_id := "img1",
      url := "http://example.com/a.jpg", options := {} } rfl rfl rfl

/-- C9 counterexample: the empty JSON object `{}` is a JSON request body,
yet the endpoint answers it with a bare 400 error reply (`request.get_json()`
returned a falsy value), not with the full result object the claim
promises for every JSON body. -/
theorem process_endpoint_empty_body_cex :
    process_single_image envAllOk PostBody.emptyObject "fresh-job" "fresh-image" =
      HttpReply.errorReply 400 "Request body must be JSON" := rfl

/-- C9 amended: for every non-empty JSON object body the endpoint fills in
`job_id` and `image_id` with fresh identifiers when they are absent and, when
the body has a `url`, returns the full result object of the run — errors
embedded in its error list, whatever the outcome; a body without `url`
however gets a bare 500 error reply (the `KeyError` escapes to the endpoint
handler), and a falsy body (not JSON, or the empty object) a bare 400. -/
theorem process_endpoint_behavior (env : Env) (raw : RawJob) (fj fi : String) :
    process_single_image env (PostBody.obj raw) fj fi =
      (match raw.url with
       | some u => HttpReply.fullResult (process_image_job env
           { job_id := raw.job_id.getD fj, image_id := raw.image_id.getD fi,
             url := u, options := raw.options })
       | none => HttpReply.errorReply 500 "KeyError") := by
  rcases raw with ⟨jid, iid, url, opts⟩
  cases url <;> rfl

end PixelPipe
